import Mathlib

/-!
Shallow embedding of the terraform-provider-tacticalrmm adapter layer
(`internal/provider/*.go`) together with theorems about its CRUD and
data-source behaviour.

Conventions of the embedding:

* Terraform framework values (`types.String`, `types.Int64`, `types.Bool`,
  `types.List`) are tri-state: null, unknown, or a concrete value.  They are
  modelled by `Tri`.  `ValueString`/`ValueInt64`/`ValueBool` return the zero
  value on null/unknown, modelled by `Tri.valueOr`.
* JSON records decoded into `map[string]interface{}` are modelled by flat
  records of `Option` fields: a field is `some v` exactly when the JSON map
  holds that key with the dynamic type the Go code asserts
  (`v, ok := m["k"].(T)`), and `none` when the key is absent or of another
  type.  List-valued fields keep only their string elements, matching the
  `arg.(string)` assertions the Go code performs element-wise.
* HTTP exchanges are made explicit: each operation takes the status codes and
  decoded bodies of the responses it would receive, in the order the Go code
  issues the requests, and returns the outcome the Go code would write
  (diagnostic error, state removal, or a new state).
-/

/-- Tri-state terraform attribute value: null, unknown, or a known value
(`types.String` / `types.Int64` / `types.Bool` / `types.List` in
terraform-plugin-framework). -/
inductive Tri (α : Type) where
  | null
  | unknown
  | val (a : α)
  deriving Repr, DecidableEq

namespace Tri

/-- The `IsNull()` predicate of terraform-plugin-framework. -/
def isNull : Tri α → Bool
  | .null => true
  | _ => false

/-- The `IsUnknown()` predicate of terraform-plugin-framework. -/
def isUnknown : Tri α → Bool
  | .unknown => true
  | _ => false

/-- The `ValueString()` / `ValueInt64()` / `ValueBool()` accessors: the held value, or the
given zero value when null or unknown. -/
def valueOr (d : α) : Tri α → α
  | .val a => a
  | _ => d

end Tri

/-- A JSON value as placed into the `map[string]interface{}` request bodies
built by the resource adapters. -/
inductive JVal where
  | s (v : String)
  | i (v : Int)
  | b (v : Bool)
  | ls (v : List String)
  deriving Repr, DecidableEq

/-- A JSON request body: the `map[string]interface{}` the Go code marshals,
as an association list in insertion order (all keys inserted are distinct). -/
abbrev JBody := List (String × JVal)

/-- A conditionally present body entry: `if cond { body[k] = v }`. -/
def entryIf (cond : Bool) (k : String) (v : JVal) : JBody :=
  if cond then [(k, v)] else []

/-- A decoded script JSON record (`map[string]interface{}`) as the Go code
reads it field by field with type assertions. -/
structure ScriptJson where
  id : Option Int := none
  name : Option String := none
  description : Option String := none
  shell : Option String := none
  scriptType : Option String := none
  category : Option String := none
  scriptBody : Option String := none
  defaultTimeout : Option Int := none
  favorite : Option Bool := none
  hidden : Option Bool := none
  runAsUser : Option Bool := none
  args : Option (List String) := none
  envVars : Option (List String) := none
  supportedPlatforms : Option (List String) := none
  synField : Option String := none
  filename : Option String := none
  scriptHash : Option String := none
  deriving Repr, DecidableEq

/-- The `ScriptResourceModel` state/plan record (script_resource.go). -/
structure ScriptResourceModel where
  id : Tri Int := .null
  name : Tri String := .null
  description : Tri String := .null
  shell : Tri String := .null
  scriptType : Tri String := .null
  category : Tri String := .null
  scriptBody : Tri String := .null
  defaultTimeout : Tri Int := .null
  favorite : Tri Bool := .null
  hidden : Tri Bool := .null
  runAsUser : Tri Bool := .null
  args : Tri (List String) := .null
  envVars : Tri (List String) := .null
  supportedPlatforms : Tri (List String) := .null
  synField : Tri String := .null
  deriving Repr, DecidableEq

/-- Outcome of a resource `Read`: state removed (soft not-found), a reported
diagnostic error, or a refreshed state. -/
inductive ReadOutcome (σ : Type) where
  | removed
  | errored
  | ok (st : σ)
  deriving Repr, DecidableEq

namespace ScriptResource

/-- The POST body built by `ScriptResource.Create` (script_resource.go,
lines 161-209): required fields plus `script_type: "userdefined"`, then the
optional fields (with `default_timeout` defaulted to 90 when null), then the
three list fields when non-null. -/
def createBody (data : ScriptResourceModel) : JBody :=
  [("name", .s (data.name.valueOr "")),
   ("shell", .s (data.shell.valueOr "")),
   ("script_body", .s (data.scriptBody.valueOr "")),
   ("script_type", .s "userdefined")]
  ++ entryIf (!data.description.isNull) "description" (.s (data.description.valueOr ""))
  ++ entryIf (!data.category.isNull) "category" (.s (data.category.valueOr ""))
  ++ (if !data.defaultTimeout.isNull
      then [("default_timeout", JVal.i (data.defaultTimeout.valueOr 0))]
      else [("default_timeout", JVal.i 90)])
  ++ entryIf (!data.favorite.isNull) "favorite" (.b (data.favorite.valueOr false))
  ++ entryIf (!data.hidden.isNull) "hidden" (.b (data.hidden.valueOr false))
  ++ entryIf (!data.runAsUser.isNull) "run_as_user" (.b (data.runAsUser.valueOr false))
  ++ entryIf (!data.synField.isNull) "syntax" (.s (data.synField.valueOr ""))
  ++ entryIf (!data.args.isNull) "args" (.ls (data.args.valueOr []))
  ++ entryIf (!data.envVars.isNull) "env_vars" (.ls (data.envVars.valueOr []))
  ++ entryIf (!data.supportedPlatforms.isNull) "supported_platforms"
      (.ls (data.supportedPlatforms.valueOr []))

/-- The scan of the post-create list response for the record whose `name`
equals the planned name (script_resource.go, lines 258-265). -/
def findByName (target : String) (scripts : List ScriptJson) : Option ScriptJson :=
  scripts.find? (fun s => s.name == some target)

/-- The state written by `ScriptResource.Create` once the created record was
located in the list response (script_resource.go, lines 272-357).  `argsWasNull`
etc. are captured from the plan before the body is built (lines 156-159). -/
def createState (data : ScriptResourceModel) (created : ScriptJson) : ScriptResourceModel :=
  let argsWasNull := data.args.isNull
  let envVarsWasNull := data.envVars.isNull
  let platformsWasNull := data.supportedPlatforms.isNull
  { data with
    id := match created.id with
      | some v => .val v
      | none => data.id
    scriptType := .val (created.scriptType.getD "userdefined")
    defaultTimeout := match created.defaultTimeout with
      | some t => .val t
      | none =>
          if data.defaultTimeout.isNull || data.defaultTimeout.isUnknown
          then .val 90 else data.defaultTimeout
    favorite := .val (created.favorite.getD false)
    hidden := .val (created.hidden.getD false)
    runAsUser := .val (created.runAsUser.getD false)
    args := if argsWasNull then data.args
      else match created.args with
        | some l => .val l
        | none => .val []
    envVars := if envVarsWasNull then data.envVars
      else match created.envVars with
        | some l => .val l
        | none => .val []
    supportedPlatforms := if platformsWasNull then data.supportedPlatforms
      else match created.supportedPlatforms with
        | some l => .val l
        | none => .val [] }

/-- The whole `ScriptResource.Create` operation end to end: POST (status `createStatus`), then the
follow-up list (decoded `listed`), then locate the record by name.  Non-200
POST and a missing record are the two diagnostic errors. -/
def create (data : ScriptResourceModel) (createStatus : Nat) (listed : List ScriptJson) :
    Except String ScriptResourceModel :=
  if createStatus ≠ 200 then
    .error ("Unable to create script, status code: " ++ toString createStatus)
  else
    match findByName (data.name.valueOr "") listed with
    | none => .error "Unable to find created script"
    | some created => .ok (createState data created)

/-- The merge of a 200 GET response into the prior state performed by
`ScriptResource.Read` (script_resource.go, lines 400-467).  Each scalar field
is overwritten only when present (and, for `category`/`syntax`, non-empty);
each list field is overwritten only when present and non-empty, otherwise the
prior state value (null or empty) is kept. -/
def readMerge (data : ScriptResourceModel) (result : ScriptJson) : ScriptResourceModel :=
  { data with
    name := match result.name with
      | some v => .val v
      | none => data.name
    description := match result.description with
      | some v => .val v
      | none => data.description
    shell := match result.shell with
      | some v => .val v
      | none => data.shell
    scriptType := match result.scriptType with
      | some v => .val v
      | none => data.scriptType
    category := match result.category with
      | some v => if v ≠ "" then .val v else data.category
      | none => data.category
    scriptBody := match result.scriptBody with
      | some v => .val v
      | none => data.scriptBody
    defaultTimeout := match result.defaultTimeout with
      | some v => .val v
      | none => data.defaultTimeout
    favorite := match result.favorite with
      | some v => .val v
      | none => data.favorite
    hidden := match result.hidden with
      | some v => .val v
      | none => data.hidden
    runAsUser := match result.runAsUser with
      | some v => .val v
      | none => data.runAsUser
    synField := match result.synField with
      | some v => if v ≠ "" then .val v else data.synField
      | none => data.synField
    args := match result.args with
      | some (a :: l) => .val (a :: l)
      | _ => data.args
    envVars := match result.envVars with
      | some (a :: l) => .val (a :: l)
      | _ => data.envVars
    supportedPlatforms := match result.supportedPlatforms with
      | some (a :: l) => .val (a :: l)
      | _ => data.supportedPlatforms }

/-- The `ScriptResource.Read` operation: GET by id; 404 removes the resource from state
without error, any other non-200 reports an error, 200 merges the decoded
record into the prior state (script_resource.go, lines 360-470). -/
def read (data : ScriptResourceModel) (status : Nat) (result : ScriptJson) :
    ReadOutcome ScriptResourceModel :=
  if status = 404 then .removed
  else if status ≠ 200 then .errored
  else .ok (readMerge data result)

/-- The PUT body built by `ScriptResource.Update` (script_resource.go, lines
492-536): like the create body but with no `script_type` entry, no fallback
default for `default_timeout`, and of course no `id`. -/
def updateBody (data : ScriptResourceModel) : JBody :=
  [("name", .s (data.name.valueOr "")),
   ("shell", .s (data.shell.valueOr "")),
   ("script_body", .s (data.scriptBody.valueOr ""))]
  ++ entryIf (!data.description.isNull) "description" (.s (data.description.valueOr ""))
  ++ entryIf (!data.category.isNull) "category" (.s (data.category.valueOr ""))
  ++ entryIf (!data.defaultTimeout.isNull) "default_timeout" (.i (data.defaultTimeout.valueOr 0))
  ++ entryIf (!data.favorite.isNull) "favorite" (.b (data.favorite.valueOr false))
  ++ entryIf (!data.hidden.isNull) "hidden" (.b (data.hidden.valueOr false))
  ++ entryIf (!data.runAsUser.isNull) "run_as_user" (.b (data.runAsUser.valueOr false))
  ++ entryIf (!data.synField.isNull) "syntax" (.s (data.synField.valueOr ""))
  ++ entryIf (!data.args.isNull) "args" (.ls (data.args.valueOr []))
  ++ entryIf (!data.envVars.isNull) "env_vars" (.ls (data.envVars.valueOr []))
  ++ entryIf (!data.supportedPlatforms.isNull) "supported_platforms"
      (.ls (data.supportedPlatforms.valueOr []))

/-- The diagnostic message for a non-200 PUT during `ScriptResource.Update`
(script_resource.go, line 560).  It interpolates only the status code; the
response body is never read. -/
def updateErrMsg (status : Nat) : String :=
  "Unable to update script, status code: " ++ toString status

/-- The diagnostic message for a non-200 follow-up GET during
`ScriptResource.Update` (script_resource.go, line 579). -/
def updateGetErrMsg (status : Nat) : String :=
  "Unable to read updated script, status code: " ++ toString status

/-- The `ScriptResource.Update` operation: take the id from prior state, PUT, then follow-up
GET to repopulate the computed fields (script_resource.go, lines 472-622). -/
def update (plan state : ScriptResourceModel) (putStatus getStatus : Nat)
    (result : ScriptJson) : Except String ScriptResourceModel :=
  let data := { plan with id := state.id }
  if putStatus ≠ 200 then .error (updateErrMsg putStatus)
  else if getStatus ≠ 200 then .error (updateGetErrMsg getStatus)
  else .ok { data with
    scriptType := .val (result.scriptType.getD "userdefined")
    defaultTimeout := match result.defaultTimeout with
      | some t => .val t
      | none =>
          if data.defaultTimeout.isNull || data.defaultTimeout.isUnknown
          then .val 90 else data.defaultTimeout
    favorite := match result.favorite with
      | some v => .val v
      | none =>
          if data.favorite.isNull || data.favorite.isUnknown
          then .val false else data.favorite
    hidden := match result.hidden with
      | some v => .val v
      | none =>
          if data.hidden.isNull || data.hidden.isUnknown
          then .val false else data.hidden
    runAsUser := match result.runAsUser with
      | some v => .val v
      | none =>
          if data.runAsUser.isNull || data.runAsUser.isUnknown
          then .val false else data.runAsUser }

end ScriptResource

/-- A decoded keystore entry JSON record. -/
structure KeyJson where
  id : Option Int := none
  name : Option String := none
  value : Option String := none
  deriving Repr, DecidableEq

/-- The `KeyStoreResourceModel` record (keystore_resource.go). -/
structure KeyStoreResourceModel where
  id : Tri Int := .null
  name : Tri String := .null
  value : Tri String := .null
  deriving Repr, DecidableEq

namespace KeyStoreResource

/-- The POST/PUT body built by `KeyStoreResource.Create` and
`KeyStoreResource.Update` (keystore_resource.go, lines 90-93 and 242-245):
just `name` and `value`. -/
def body (data : KeyStoreResourceModel) : JBody :=
  [("name", .s (data.name.valueOr "")),
   ("value", .s (data.value.valueOr ""))]

/-- The `KeyStoreResource.Read` operation (keystore_resource.go, lines 164-220): the entity
has no per-id GET endpoint, so the full collection is fetched and scanned for
the stored id.  Non-200 on the list is an error; a missing id removes the
resource from state without error; a hit refreshes `name` and `value`. -/
def read (data : KeyStoreResourceModel) (status : Nat) (entries : List KeyJson) :
    ReadOutcome KeyStoreResourceModel :=
  if status ≠ 200 then .errored
  else
    match entries.find? (fun e => e.id == some (data.id.valueOr 0)) with
    | none => .removed
    | some e => .ok { data with
        name := match e.name with
          | some v => .val v
          | none => data.name
        value := match e.value with
          | some v => .val v
          | none => data.value }

/-- The diagnostic message for a non-200 PUT during `KeyStoreResource.Update`
(keystore_resource.go, lines 269-275).  Unlike the script and snippet updates
it reads the response body and interpolates it into the message. -/
def updateErrMsg (id : Int) (status : Nat) (url respBody : String) : String :=
  "Unable to update keystore entry ID " ++ toString id ++ ", status code: "
    ++ toString status ++ ", URL: " ++ url ++ ", response: " ++ respBody

/-- The `KeyStoreResource.Update` operation: take the id from prior state, PUT `name` and
`value`; no follow-up GET (keystore_resource.go, lines 222-279). -/
def update (plan state : KeyStoreResourceModel) (putStatus : Nat)
    (url respBody : String) : Except String KeyStoreResourceModel :=
  let data := { plan with id := state.id }
  if putStatus ≠ 200 then
    .error (updateErrMsg (data.id.valueOr 0) putStatus url respBody)
  else .ok data

end KeyStoreResource

/-- The `ScriptSnippetResourceModel` record (the snippet resource file). -/
structure SnippetResourceModel where
  id : Tri Int := .null
  name : Tri String := .null
  desc : Tri String := .null
  code : Tri String := .null
  shell : Tri String := .null
  deriving Repr, DecidableEq

/-- A decoded script-snippet JSON record. -/
structure SnippetJson where
  id : Option Int := none
  name : Option String := none
  desc : Option String := none
  code : Option String := none
  shell : Option String := none
  deriving Repr, DecidableEq

namespace SnippetResource

/-- The PUT body built by `ScriptSnippetResource.Update` (snippet resource,
lines 265-276): `name` and `code`, plus `desc` and `shell` when non-null.
No `id` entry. -/
def updateBody (data : SnippetResourceModel) : JBody :=
  [("name", .s (data.name.valueOr "")),
   ("code", .s (data.code.valueOr ""))]
  ++ entryIf (!data.desc.isNull) "desc" (.s (data.desc.valueOr ""))
  ++ entryIf (!data.shell.isNull) "shell" (.s (data.shell.valueOr ""))

/-- The diagnostic message for a non-200 PUT during
`ScriptSnippetResource.Update` (snippet resource, line 300): status code only,
the response body is never read. -/
def updateErrMsg (status : Nat) : String :=
  "Unable to update script snippet, status code: " ++ toString status

/-- The diagnostic message for a non-200 follow-up GET during
`ScriptSnippetResource.Update` (snippet resource, line 319). -/
def updateGetErrMsg (status : Nat) : String :=
  "Unable to read updated script snippet, status code: " ++ toString status

/-- The `ScriptSnippetResource.Update` operation: id from prior state, PUT, follow-up GET to
repopulate the computed `shell` field (snippet resource, lines 245-338). -/
def update (plan state : SnippetResourceModel) (putStatus getStatus : Nat)
    (result : SnippetJson) : Except String SnippetResourceModel :=
  let data := { plan with id := state.id }
  if putStatus ≠ 200 then .error (updateErrMsg putStatus)
  else if getStatus ≠ 200 then .error (updateGetErrMsg getStatus)
  else .ok { data with
    shell := match result.shell with
      | some v => .val v
      | none =>
          if data.shell.isNull || data.shell.isUnknown
          then .val "powershell" else data.shell }

/-- The `ScriptSnippetResource.Read` operation (snippet resource, lines 188-243): GET by id;
404 removes from state silently, other non-200 errors, 200 merges. -/
def read (data : SnippetResourceModel) (status : Nat) (result : SnippetJson) :
    ReadOutcome SnippetResourceModel :=
  if status = 404 then .removed
  else if status ≠ 200 then .errored
  else .ok { data with
    name := match result.name with
      | some v => .val v
      | none => data.name
    desc := match result.desc with
      | some v => .val v
      | none => data.desc
    code := match result.code with
      | some v => .val v
      | none => data.code
    shell := match result.shell with
      | some v => .val v
      | none => data.shell }

end SnippetResource

/-- Errors a singular data source can report (script_data_source.go /
keystore_data_source.go): the malformed-input "missing identifier" error, an
HTTP error with the status code, and the hard "not found" lookup error. -/
inductive DSErr where
  | missingIdentifier
  | httpError (status : Nat)
  | notFound
  deriving Repr, DecidableEq

/-- The input half of `ScriptDataSourceModel`: the two optional lookup keys of
the singular script data source. -/
structure ScriptDSQuery where
  id : Tri Int := .null
  name : Tri String := .null
  deriving Repr, DecidableEq

/-- The projected output of the singular script data source: the state set at
the end of `ScriptDataSource.Read` (script_data_source.go, lines 239-330),
built by overwriting the query model with the found record's fields (with
explicit nulls for absent optional fields). -/
structure ScriptDSModel where
  id : Tri Int
  name : Tri String
  description : Tri String
  shell : Tri String
  scriptType : Tri String
  category : Tri String
  filename : Tri String
  scriptBody : Tri String
  scriptHash : Tri String
  defaultTimeout : Tri Int
  favorite : Tri Bool
  hidden : Tri Bool
  runAsUser : Tri Bool
  args : Tri (List String)
  envVars : Tri (List String)
  supportedPlatforms : Tri (List String)
  synField : Tri String
  deriving Repr, DecidableEq

namespace ScriptDS

/-- The projection of a found script record into the data-source state
(script_data_source.go, lines 239-328).  Fields absent from the record keep
the corresponding query value where the Go code has no else-branch (`id`,
`name`, `shell`, `script_type`, `script_body`, `default_timeout`, `favorite`,
`hidden`, `run_as_user` — of which only `id` and `name` exist in the query;
the rest start null) and are set to explicit null where it does
(`description`, `category`, `filename`, `script_hash`, `syntax`) or for
empty/absent lists. -/
def project (q : ScriptDSQuery) (s : ScriptJson) : ScriptDSModel where
  id := match s.id with
    | some v => .val v
    | none => q.id
  name := match s.name with
    | some v => .val v
    | none => q.name
  description := match s.description with
    | some v => .val v
    | none => .null
  shell := match s.shell with
    | some v => .val v
    | none => .null
  scriptType := match s.scriptType with
    | some v => .val v
    | none => .null
  category := match s.category with
    | some v => if v ≠ "" then .val v else .null
    | none => .null
  filename := match s.filename with
    | some v => if v ≠ "" then .val v else .null
    | none => .null
  scriptBody := match s.scriptBody with
    | some v => .val v
    | none => .null
  scriptHash := match s.scriptHash with
    | some v => if v ≠ "" then .val v else .null
    | none => .null
  defaultTimeout := match s.defaultTimeout with
    | some v => .val v
    | none => .null
  favorite := match s.favorite with
    | some v => .val v
    | none => .null
  hidden := match s.hidden with
    | some v => .val v
    | none => .null
  runAsUser := match s.runAsUser with
    | some v => .val v
    | none => .null
  args := match s.args with
    | some (a :: l) => .val (a :: l)
    | _ => .null
  envVars := match s.envVars with
    | some (a :: l) => .val (a :: l)
    | _ => .null
  supportedPlatforms := match s.supportedPlatforms with
    | some (a :: l) => .val (a :: l)
    | _ => .null
  synField := match s.synField with
    | some v => if v ≠ "" then .val v else .null
    | none => .null

/-- The `ScriptDataSource.Read` operation (script_data_source.go, lines 151-331).  The
remote side is modelled by the decoded script collection `server`: the
per-id GET `/scripts/{id}/` returns the record of the requested id (404 when
absent), and the list GET `/scripts/` returns the whole collection.
Validation: only the neither-id-nor-name case is rejected as malformed; when
`id` is set the name branch is never entered. -/
def read (q : ScriptDSQuery) (server : List ScriptJson) :
    Except DSErr ScriptDSModel :=
  if q.id.isNull && q.name.isNull then .error .missingIdentifier
  else if !q.id.isNull then
    match server.find? (fun s => s.id == some (q.id.valueOr 0)) with
    | none => .error .notFound
    | some s => .ok (project q s)
  else
    match server.find? (fun s => s.name == some (q.name.valueOr "")) with
    | none => .error .notFound
    | some s => .ok (project q s)

end ScriptDS

/-- The `KeyStoreDataSourceModel` record (keystore_data_source.go): query keys `id` and
`name`, plus the computed `value`. -/
structure KeyStoreDSModel where
  id : Tri Int := .null
  name : Tri String := .null
  value : Tri String := .null
  deriving Repr, DecidableEq

namespace KeyStoreDS

/-- The `KeyStoreDataSource.Read` operation (keystore_data_source.go, lines 78-161): the
neither-id-nor-name check, then a GET of the whole collection (status
`status`, decoded `entries`), then a scan by id when `id` is set, otherwise a
scan by name; the found entry's present fields overwrite the model. -/
def read (data : KeyStoreDSModel) (status : Nat) (entries : List KeyJson) :
    Except DSErr KeyStoreDSModel :=
  if data.id.isNull && data.name.isNull then .error .missingIdentifier
  else if status ≠ 200 then .error (.httpError status)
  else
    let found :=
      if !data.id.isNull then
        entries.find? (fun e => e.id == some (data.id.valueOr 0))
      else
        entries.find? (fun e => e.name == some (data.name.valueOr ""))
    match found with
    | none => .error .notFound
    | some e => .ok { data with
        id := match e.id with
          | some v => .val v
          | none => data.id
        name := match e.name with
          | some v => .val v
          | none => data.name
        value := match e.value with
          | some v => .val v
          | none => data.value }

end KeyStoreDS

/-- The filter half of `ScriptsDataSourceModel` (the plural scripts data
source): optional `id`, `name`, `script_type`, `shell`, `category`, `hidden`.
The schema declares no other filter attribute. -/
structure ScriptsFilter where
  id : Tri Int := .null
  name : Tri String := .null
  scriptType : Tri String := .null
  shell : Tri String := .null
  category : Tri String := .null
  hidden : Tri Bool := .null
  deriving Repr, DecidableEq

namespace ScriptsDS

/-- The id branch of the plural filter: loop over the collection appending
the first record whose `id` equals the target, then `break` (the plural
scripts data source, lines 220-228). -/
def firstIdMatch (target : Int) : List ScriptJson → List ScriptJson
  | [] => []
  | s :: rest =>
      if s.id == some target then [s] else firstIdMatch target rest

/-- The `include` flag chain of the non-id branch (the plural scripts data
source, lines 231-268): conjunction of the declared equality filters, in
declaration order `name`, `script_type`, `shell`, `category`, `hidden`.  A
record with an absent/mistyped field fails any declared filter on it. -/
def includePred (f : ScriptsFilter) (s : ScriptJson) : Bool :=
  (f.name.isNull || s.name == some (f.name.valueOr ""))
  && (f.scriptType.isNull || s.scriptType == some (f.scriptType.valueOr ""))
  && (f.shell.isNull || s.shell == some (f.shell.valueOr ""))
  && (f.category.isNull || s.category == some (f.category.valueOr ""))
  && (f.hidden.isNull || s.hidden == some (f.hidden.valueOr false))

/-- The non-id branch: loop appending every record that passes the `includePred`
chain, preserving the server's order. -/
def filterLoop (f : ScriptsFilter) : List ScriptJson → List ScriptJson
  | [] => []
  | s :: rest =>
      if includePred f s then s :: filterLoop f rest else filterLoop f rest

/-- The whole client-side filtering step of `ScriptsDataSource.Read` (the
plural scripts data source, lines 216-273): an `id` filter takes the first id
match and stops; otherwise the conjunctive filters apply. -/
def applyFilters (f : ScriptsFilter) (scripts : List ScriptJson) : List ScriptJson :=
  if !f.id.isNull then firstIdMatch (f.id.valueOr 0) scripts
  else filterLoop f scripts

end ScriptsDS

/-- The filter half of `KeyStoresDataSourceModel` (keystore_resource.go,
plural data source): optional `id` and `name`. -/
structure KeyStoresFilter where
  id : Tri Int := .null
  name : Tri String := .null
  deriving Repr, DecidableEq

namespace KeyStoresDS

/-- The id branch: first entry with the target id, then `break`
(keystore_resource.go, lines 455-463). -/
def firstIdMatch (target : Int) : List KeyJson → List KeyJson
  | [] => []
  | e :: rest =>
      if e.id == some target then [e] else firstIdMatch target rest

/-- The name branch: every entry with the target name, in order
(keystore_resource.go, lines 464-471). -/
def nameMatches (target : String) : List KeyJson → List KeyJson
  | [] => []
  | e :: rest =>
      if e.name == some target then e :: nameMatches target rest
      else nameMatches target rest

/-- The client-side filtering step of `KeyStoresDataSource.Read`
(keystore_resource.go, lines 452-475): id filter short-circuits, else name
filter, else the whole collection. -/
def applyFilters (f : KeyStoresFilter) (entries : List KeyJson) : List KeyJson :=
  if !f.id.isNull then firstIdMatch (f.id.valueOr 0) entries
  else if !f.name.isNull then nameMatches (f.name.valueOr "") entries
  else entries

end KeyStoresDS

/-- The provider configuration model (`trmmProviderModel`): optional
`endpoint` and `api_key` attributes. -/
structure ProviderConfig where
  endpoint : Tri String := .null
  apiKey : Tri String := .null
  deriving Repr, DecidableEq

/-- The `ClientConfig` handed to every resource and data source. -/
structure ClientConfig where
  baseURL : String
  apiKey : String
  deriving Repr, DecidableEq

/-- The `trmmProvider.Configure` operation (provider file, lines 729-769).  `env` is the
process environment, which the running provider can consult; this function
never does — despite the schema descriptions naming `TRMM_ENDPOINT` and
`TRMM_API_KEY` and the comment "If values aren't known, check environment
variables", no `os.Getenv` call exists.  An empty/absent endpoint falls back
to the fixed public URL; an empty/absent api key is a fatal error and no
client is produced. -/
def trmmConfigure (config : ProviderConfig) (_env : String → Option String) :
    Except String ClientConfig :=
  let endpoint := config.endpoint.valueOr ""
  let apiKey := config.apiKey.valueOr ""
  let endpoint := if endpoint = "" then "https://api.tactical-rmm.com" else endpoint
  if apiKey = "" then .error "Missing API Key"
  else .ok { baseURL := endpoint, apiKey := apiKey }

/-- One base-10 digit of `strconv.ParseInt`. -/
def digitVal (c : Char) : Option Nat :=
  if '0' ≤ c ∧ c ≤ '9' then some (c.toNat - 48) else none

/-- The digit loop of `strconv.ParseInt(s, 10, 64)`: every remaining
character must be a digit. -/
def parseDigits : List Char → Nat → Option Nat
  | [], acc => some acc
  | c :: cs, acc =>
      match digitVal c with
      | some d => parseDigits cs (acc * 10 + d)
      | none => none

/-- Model of `strconv.ParseInt(s, 10, 64)`: optional sign, at least one digit, all
digits, and the value must fit in a signed 64-bit integer; otherwise an
error (`none`). -/
def parseInt64 (s : String) : Option Int :=
  let (sign, rest) : Int × List Char :=
    match s.toList with
    | '+' :: cs => (1, cs)
    | '-' :: cs => (-1, cs)
    | cs => (1, cs)
  match rest with
  | [] => none
  | _ =>
    match parseDigits rest 0 with
    | none => none
    | some n =>
        let v : Int := sign * n
        if v < -(2 ^ 63) ∨ v > 2 ^ 63 - 1 then none else some v

/-- The `ScriptResource.ImportState` handler (script_resource.go, lines 653-662), shared
shape with the keystore and snippet import handlers: parse the external id as
a base-10 64-bit integer and seed only the `id` attribute; non-integer input
is a diagnostic error. -/
def scriptImportState (extId : String) : Except String Int :=
  match parseInt64 extId with
  | none => .error "Invalid ID"
  | some i => .ok i

/-- A script record in which the server reports no `args`, `env_vars` or
`supported_platforms` elements (each field absent from the JSON or an empty
array) — the shape the server returns for a script whose create request
carried no list elements. -/
def listsAbsentOrEmpty (r : ScriptJson) : Prop :=
  (r.args = none ∨ r.args = some []) ∧
  (r.envVars = none ∨ r.envVars = some []) ∧
  (r.supportedPlatforms = none ∨ r.supportedPlatforms = some [])

/-- The state after a sequence of successful `ScriptResource.Read` merges. -/
def ScriptResource.readMergeAll (st : ScriptResourceModel) (rs : List ScriptJson) :
    ScriptResourceModel :=
  rs.foldl ScriptResource.readMerge st

/-- Modelled from the spec: the membership predicate the claim asserts for
the plural scripts data source — "equality filters over category, shell,
script_type, hidden, favorite, and platform-contains".  Of these, only
`category`, `shell`, `script_type` and `hidden` exist as declarable filter
attributes in the code's filter model (`ScriptsFilter`); `favorite` and a
platform filter do not, so on the code's filter type the claim's predicate
reduces to the four checks below — in particular a declared `name` filter is
not among the claim's filters, hence must not affect membership. -/
def specClaimMatches (f : ScriptsFilter) (s : ScriptJson) : Bool :=
  (f.category.isNull || s.category == some (f.category.valueOr ""))
  && (f.shell.isNull || s.shell == some (f.shell.valueOr ""))
  && (f.scriptType.isNull || s.scriptType == some (f.scriptType.valueOr ""))
  && (f.hidden.isNull || s.hidden == some (f.hidden.valueOr false))

/-- Substring occurrence test on character lists: the needle occurs
contiguously somewhere in the haystack. -/
def subAt (needle : List Char) : List Char → Bool
  | [] => needle.isEmpty
  | c :: cs => needle.isPrefixOf (c :: cs) || subAt needle cs

/-! ## Helper lemmas -/

/-- The keys contributed by a conditional body entry. -/
theorem keys_entryIf (c : Bool) (k : String) (v : JVal) :
    (entryIf c k v).map Prod.fst = if c then [k] else [] := by
  unfold entryIf; split <;> rfl

/-- A key distinct from a conditional entry's key never occurs among its
keys. -/
theorem not_mem_keys_entryIf {key k : String} (h : key ≠ k) (c : Bool) (v : JVal) :
    key ∉ (entryIf c k v).map Prod.fst := by
  rw [keys_entryIf]; split <;> simp [h]

/-- Key absence distributes over body concatenation. -/
theorem not_mem_keys_append {key : String} {l₁ l₂ : JBody}
    (h₁ : key ∉ l₁.map Prod.fst) (h₂ : key ∉ l₂.map Prod.fst) :
    key ∉ (l₁ ++ l₂).map Prod.fst := by
  simp only [List.map_append, List.mem_append]
  tauto

/-- C10: for every Script Create, the POST body's `script_type` field equals
the literal string `"userdefined"`, regardless of any `script_type` value in
the plan: the configured value is never consulted when the create body is
built. -/
theorem script_create_body_scriptType_userdefined (plan : ScriptResourceModel) :
    (ScriptResource.createBody plan).lookup "script_type" = some (.s "userdefined") := by
  rfl

/-- C2: provider configuration.  Evaluates `trmmProvider.Configure` on the
failing input — no explicit configuration, with `TRMM_API_KEY` (and
`TRMM_ENDPOINT`) set in the process environment — showing the environment is
never consulted and the fatal "Missing API Key" error is reported with no
client produced, contrary to the schema's documented
`TRMM_API_KEY`/`TRMM_ENDPOINT` environment fallback.  The remaining parts of
the claim hold for explicit configuration: an absent/empty explicit endpoint
defaults to the fixed public URL, and an explicitly configured endpoint is
kept. -/
theorem trmm_configure_env_ignored_c2 :
    trmmConfigure {} (fun k =>
        if k = "TRMM_API_KEY" then some "secret-key"
        else if k = "TRMM_ENDPOINT" then some "https://rmm.example.com"
        else none)
      = .error "Missing API Key" ∧
    trmmConfigure { apiKey := .val "k" } (fun _ => none)
      = .ok { baseURL := "https://api.tactical-rmm.com", apiKey := "k" } ∧
    trmmConfigure { endpoint := .val "", apiKey := .val "k" } (fun _ => none)
      = .ok { baseURL := "https://api.tactical-rmm.com", apiKey := "k" } ∧
    trmmConfigure { endpoint := .val "https://my.rmm", apiKey := .val "k" } (fun _ => none)
      = .ok { baseURL := "https://my.rmm", apiKey := "k" } ∧
    trmmConfigure { endpoint := .val "https://my.rmm" } (fun _ => none)
      = .error "Missing API Key" := by
  refine ⟨rfl, rfl, rfl, rfl, rfl⟩

/-- C8: update body frame — for every Update of any of the three resources,
the JSON body sent to the server contains neither the entity's identifier
(`id`) nor, for scripts, the immutable `script_type` field; and the
identifier stored in state after a successful Update equals the identifier
from the prior state. -/
theorem update_body_frame_c8 :
    (∀ plan : ScriptResourceModel,
        "id" ∉ (ScriptResource.updateBody plan).map Prod.fst ∧
        "script_type" ∉ (ScriptResource.updateBody plan).map Prod.fst) ∧
    (∀ plan : KeyStoreResourceModel,
        "id" ∉ (KeyStoreResource.body plan).map Prod.fst) ∧
    (∀ plan : SnippetResourceModel,
        "id" ∉ (SnippetResource.updateBody plan).map Prod.fst) ∧
    (∀ (plan state : ScriptResourceModel) (putStatus getStatus : Nat)
        (result : ScriptJson) (st' : ScriptResourceModel),
        ScriptResource.update plan state putStatus getStatus result = .ok st' →
        st'.id = state.id) ∧
    (∀ (plan state : KeyStoreResourceModel) (putStatus : Nat) (url respBody : String)
        (st' : KeyStoreResourceModel),
        KeyStoreResource.update plan state putStatus url respBody = .ok st' →
        st'.id = state.id) ∧
    (∀ (plan state : SnippetResourceModel) (putStatus getStatus : Nat)
        (result : SnippetJson) (st' : SnippetResourceModel),
        SnippetResource.update plan state putStatus getStatus result = .ok st' →
        st'.id = state.id) := by
  refine ⟨?_, ?_, ?_, ?_, ?_, ?_⟩
  · intro plan
    constructor <;>
    · simp only [ScriptResource.updateBody]
      repeat' apply not_mem_keys_append
      all_goals first
        | exact not_mem_keys_entryIf (by decide) _ _
        | simp
  · intro plan
    simp [KeyStoreResource.body]
  · intro plan
    simp only [SnippetResource.updateBody]
    repeat' apply not_mem_keys_append
    all_goals first
      | exact not_mem_keys_entryIf (by decide) _ _
      | simp
  · intro plan state putStatus getStatus result st' h
    simp only [ScriptResource.update] at h
    split at h
    · exact absurd h (by simp)
    · split at h
      · exact absurd h (by simp)
      · simp only [Except.ok.injEq] at h
        subst h
        rfl
  · intro plan state putStatus url respBody st' h
    simp only [KeyStoreResource.update] at h
    split at h
    · exact absurd h (by simp)
    · simp only [Except.ok.injEq] at h
      subst h
      rfl
  · intro plan state putStatus getStatus result st' h
    simp only [SnippetResource.update] at h
    split at h
    · exact absurd h (by simp)
    · split at h
      · exact absurd h (by simp)
      · simp only [Except.ok.injEq] at h
        subst h
        rfl

/-- Witness for C8: concrete successful updates of each resource keep the
prior state's identifier. -/
theorem update_body_frame_c8_witness :
    ((ScriptResource.update {} { id := Tri.val 7 } 200 200 {}).toOption.map
        ScriptResourceModel.id = some (Tri.val 7)) ∧
    ((KeyStoreResource.update {} { id := Tri.val 3 } 200 "u" "b").toOption.map
        KeyStoreResourceModel.id = some (Tri.val 3)) ∧
    ((SnippetResource.update {} { id := Tri.val 5 } 200 200 {}).toOption.map
        SnippetResourceModel.id = some (Tri.val 5)) := by
  refine ⟨?_, ?_, ?_⟩
  · rcases hu : ScriptResource.update {} { id := Tri.val 7 } 200 200 {} with e | st'
    · exact absurd hu (by simp [ScriptResource.update])
    · have hid := update_body_frame_c8.2.2.2.1 {} { id := Tri.val 7 } 200 200 {} st' hu
      simp [Except.toOption, hid]
  · rcases hu : KeyStoreResource.update {} { id := Tri.val 3 } 200 "u" "b" with e | st'
    · exact absurd hu (by simp [KeyStoreResource.update])
    · have hid := update_body_frame_c8.2.2.2.2.1 {} { id := Tri.val 3 } 200 "u" "b" st' hu
      simp [Except.toOption, hid]
  · rcases hu : SnippetResource.update {} { id := Tri.val 5 } 200 200 {} with e | st'
    · exact absurd hu (by simp [SnippetResource.update])
    · have hid := update_body_frame_c8.2.2.2.2.2 {} { id := Tri.val 5 } 200 200 {} st' hu
      simp [Except.toOption, hid]

/-- C7: not-found-on-read is soft.  A 404 on a script or snippet Read, or a
keystore Read whose list response carries no entry with the stored id,
removes the entity from state and reports no error; every other non-200
status reports an error and does not remove the state. -/
theorem read_notfound_soft_c7 :
    (∀ (st : ScriptResourceModel) (r : ScriptJson),
        ScriptResource.read st 404 r = .removed) ∧
    (∀ (st : ScriptResourceModel) (status : Nat) (r : ScriptJson),
        status ≠ 404 → status ≠ 200 → ScriptResource.read st status r = .errored) ∧
    (∀ (st : SnippetResourceModel) (r : SnippetJson),
        SnippetResource.read st 404 r = .removed) ∧
    (∀ (st : SnippetResourceModel) (status : Nat) (r : SnippetJson),
        status ≠ 404 → status ≠ 200 → SnippetResource.read st status r = .errored) ∧
    (∀ (st : KeyStoreResourceModel) (entries : List KeyJson),
        entries.find? (fun e => e.id == some (st.id.valueOr 0)) = none →
        KeyStoreResource.read st 200 entries = .removed) ∧
    (∀ (st : KeyStoreResourceModel) (status : Nat) (entries : List KeyJson),
        status ≠ 200 → KeyStoreResource.read st status entries = .errored) := by
  refine ⟨?_, ?_, ?_, ?_, ?_, ?_⟩
  · intro st r; rfl
  · intro st status r h404 h200
    simp [ScriptResource.read, h404, h200]
  · intro st r; rfl
  · intro st status r h404 h200
    simp [SnippetResource.read, h404, h200]
  · intro st entries hfind
    simp [KeyStoreResource.read, hfind]
  · intro st status entries h200
    simp [KeyStoreResource.read, h200]

/-- Witness for C7: a deleted script id (404) is dropped from state; a 500
errors without removal; a keystore list missing the stored id drops the
entry; a keystore 503 errors. -/
theorem read_notfound_soft_c7_witness :
    (ScriptResource.read { id := Tri.val 7 } 404 {} = .removed) ∧
    (ScriptResource.read { id := Tri.val 7 } 500 {} = .errored) ∧
    (SnippetResource.read { id := Tri.val 5 } 404 {} = .removed) ∧
    (SnippetResource.read { id := Tri.val 5 } 500 {} = .errored) ∧
    (KeyStoreResource.read { id := Tri.val 3 } 200 [{ id := some 4 }] = .removed) ∧
    (KeyStoreResource.read { id := Tri.val 3 } 503 [] = .errored) := by
  refine ⟨read_notfound_soft_c7.1 _ _,
    read_notfound_soft_c7.2.1 _ 500 _ (by decide) (by decide),
    read_notfound_soft_c7.2.2.1 _ _,
    read_notfound_soft_c7.2.2.2.1 _ 500 _ (by decide) (by decide),
    read_notfound_soft_c7.2.2.2.2.1 _ _ (by decide),
    read_notfound_soft_c7.2.2.2.2.2 _ 503 _ (by decide)⟩



/-- A read merge whose response carries no list elements leaves all three
tri-state list fields untouched. -/
theorem readMerge_lists_fixed (st : ScriptResourceModel) (r : ScriptJson)
    (h : listsAbsentOrEmpty r) :
    (ScriptResource.readMerge st r).args = st.args ∧
    (ScriptResource.readMerge st r).envVars = st.envVars ∧
    (ScriptResource.readMerge st r).supportedPlatforms = st.supportedPlatforms := by
  obtain ⟨h₁, h₂, h₃⟩ := h
  refine ⟨?_, ?_, ?_⟩
  · rcases h₁ with h | h <;> simp [ScriptResource.readMerge, h]
  · rcases h₂ with h | h <;> simp [ScriptResource.readMerge, h]
  · rcases h₃ with h | h <;> simp [ScriptResource.readMerge, h]

/-- Iterating read merges whose responses carry no list elements leaves all
three tri-state list fields untouched. -/
theorem readMergeAll_lists_fixed (st : ScriptResourceModel) (rs : List ScriptJson)
    (hr : ∀ r ∈ rs, listsAbsentOrEmpty r) :
    (ScriptResource.readMergeAll st rs).args = st.args ∧
    (ScriptResource.readMergeAll st rs).envVars = st.envVars ∧
    (ScriptResource.readMergeAll st rs).supportedPlatforms = st.supportedPlatforms := by
  induction rs generalizing st with
  | nil => exact ⟨rfl, rfl, rfl⟩
  | cons r rest ih =>
    have hstep := readMerge_lists_fixed st r (hr r (by simp))
    have hrest := ih (ScriptResource.readMerge st r) (fun x hx => hr x (by simp [hx]))
    simp only [ScriptResource.readMergeAll, List.foldl_cons] at hrest ⊢
    exact ⟨hrest.1.trans hstep.1, hrest.2.1.trans hstep.2.1, hrest.2.2.trans hstep.2.2⟩

/-- C1: tri-state list reconciliation for the Script resource.  For a Create
whose plan has a null `args` list, the state written by Create keeps `args`
null, and every subsequent successful Read against a server that reports no
args elements keeps it null — never an empty list.  For a Create whose plan
has an explicitly empty `args` list, the state written by Create is the empty
list and every such subsequent Read keeps it empty — never promoted to null.
The same holds for `env_vars` and `supported_platforms`. -/
theorem script_tristate_lists_c1
    (plan : ScriptResourceModel) (created : ScriptJson) (reads : List ScriptJson)
    (hc : listsAbsentOrEmpty created) (hr : ∀ r ∈ reads, listsAbsentOrEmpty r) :
    ((plan.args = .null →
        (ScriptResource.createState plan created).args = .null ∧
        (ScriptResource.readMergeAll (ScriptResource.createState plan created) reads).args
          = .null) ∧
     (plan.args = .val [] →
        (ScriptResource.createState plan created).args = .val [] ∧
        (ScriptResource.readMergeAll (ScriptResource.createState plan created) reads).args
          = .val []) ∧
     (plan.envVars = .null →
        (ScriptResource.createState plan created).envVars = .null ∧
        (ScriptResource.readMergeAll (ScriptResource.createState plan created) reads).envVars
          = .null) ∧
     (plan.envVars = .val [] →
        (ScriptResource.createState plan created).envVars = .val [] ∧
        (ScriptResource.readMergeAll (ScriptResource.createState plan created) reads).envVars
          = .val []) ∧
     (plan.supportedPlatforms = .null →
        (ScriptResource.createState plan created).supportedPlatforms = .null ∧
        (ScriptResource.readMergeAll
            (ScriptResource.createState plan created) reads).supportedPlatforms = .null) ∧
     (plan.supportedPlatforms = .val [] →
        (ScriptResource.createState plan created).supportedPlatforms = .val [] ∧
        (ScriptResource.readMergeAll
            (ScriptResource.createState plan created) reads).supportedPlatforms = .val [])) := by
  have hall := readMergeAll_lists_fixed (ScriptResource.createState plan created) reads hr
  obtain ⟨hca, hce, hcp⟩ := hc
  refine ⟨?_, ?_, ?_, ?_, ?_, ?_⟩
  · intro h
    have : (ScriptResource.createState plan created).args = .null := by
      simp [ScriptResource.createState, h, Tri.isNull]
    exact ⟨this, hall.1.trans this⟩
  · intro h
    have : (ScriptResource.createState plan created).args = .val [] := by
      rcases hca with h' | h' <;> simp [ScriptResource.createState, h, h', Tri.isNull]
    exact ⟨this, hall.1.trans this⟩
  · intro h
    have : (ScriptResource.createState plan created).envVars = .null := by
      simp [ScriptResource.createState, h, Tri.isNull]
    exact ⟨this, hall.2.1.trans this⟩
  · intro h
    have : (ScriptResource.createState plan created).envVars = .val [] := by
      rcases hce with h' | h' <;> simp [ScriptResource.createState, h, h', Tri.isNull]
    exact ⟨this, hall.2.1.trans this⟩
  · intro h
    have : (ScriptResource.createState plan created).supportedPlatforms = .null := by
      simp [ScriptResource.createState, h, Tri.isNull]
    exact ⟨this, hall.2.2.trans this⟩
  · intro h
    have : (ScriptResource.createState plan created).supportedPlatforms = .val [] := by
      rcases hcp with h' | h' <;> simp [ScriptResource.createState, h, h', Tri.isNull]
    exact ⟨this, hall.2.2.trans this⟩

/-- Witness for C1: a concrete Create with null `args`, explicitly empty
`env_vars` and null `supported_platforms`, followed by one successful Read
whose response reports empty/absent lists, preserves all three tri-states. -/
theorem script_tristate_lists_c1_witness :
    (ScriptResource.readMergeAll
        (ScriptResource.createState
          { name := Tri.val "X", shell := Tri.val "powershell",
            scriptBody := Tri.val "Write-Output 1", envVars := Tri.val [] }
          { id := some 9, name := some "X", scriptType := some "userdefined" })
        [{ id := some 9, name := some "X", args := some [], envVars := some [] }]).args
      = Tri.null ∧
    (ScriptResource.readMergeAll
        (ScriptResource.createState
          { name := Tri.val "X", shell := Tri.val "powershell",
            scriptBody := Tri.val "Write-Output 1", envVars := Tri.val [] }
          { id := some 9, name := some "X", scriptType := some "userdefined" })
        [{ id := some 9, name := some "X", args := some [], envVars := some [] }]).envVars
      = Tri.val [] := by
  have h := script_tristate_lists_c1
    { name := Tri.val "X", shell := Tri.val "powershell",
      scriptBody := Tri.val "Write-Output 1", envVars := Tri.val [] }
    { id := some 9, name := some "X", scriptType := some "userdefined" }
    [{ id := some 9, name := some "X", args := some [], envVars := some [] }]
    ⟨Or.inl rfl, Or.inl rfl, Or.inl rfl⟩
    (by intro r hrm; simp at hrm; subst hrm
        exact ⟨Or.inr rfl, Or.inr rfl, Or.inl rfl⟩)
  exact ⟨(h.1 rfl).2, (h.2.2.2.1 rfl).2⟩

/-- C4: singular lookup precedence.  When both `id` and `name` are set on a
singular data source, the lookup runs by `id` only: the outcome is identical
to the same query with `name` null (for collections whose records carry a
name, as the remote schema guarantees), and any returned record is the one
whose id equals the query id — regardless of whether its name equals the
supplied name. -/
theorem singular_lookup_id_precedence_c4 :
    (∀ (i : Int) (n : String) (server : List ScriptJson),
        (∀ s ∈ server, s.name ≠ none) →
        ScriptDS.read { id := Tri.val i, name := Tri.val n } server
          = ScriptDS.read { id := Tri.val i, name := Tri.null } server) ∧
    (∀ (i : Int) (n : String) (status : Nat) (entries : List KeyJson),
        (∀ e ∈ entries, e.name ≠ none) →
        KeyStoreDS.read { id := Tri.val i, name := Tri.val n } status entries
          = KeyStoreDS.read { id := Tri.val i, name := Tri.null } status entries) ∧
    (∀ (i : Int) (n : String) (server : List ScriptJson) (out : ScriptDSModel),
        ScriptDS.read { id := Tri.val i, name := Tri.val n } server = .ok out →
        out.id = Tri.val i) ∧
    (∀ (i : Int) (n : String) (status : Nat) (entries : List KeyJson)
        (out : KeyStoreDSModel),
        KeyStoreDS.read { id := Tri.val i, name := Tri.val n } status entries = .ok out →
        out.id = Tri.val i) := by
  refine ⟨?_, ?_, ?_, ?_⟩
  · intro i n server hn
    cases hf : server.find? (fun s => s.id == some i) with
    | none => simp [ScriptDS.read, Tri.isNull, Tri.valueOr, hf]
    | some s =>
      have hmem := List.mem_of_find?_eq_some hf
      have hid : s.id = some i := by simpa using List.find?_some hf
      obtain ⟨nm, hnm⟩ : ∃ nm, s.name = some nm := by
        cases hname : s.name with
        | none => exact absurd hname (hn s hmem)
        | some nm => exact ⟨nm, rfl⟩
      simp [ScriptDS.read, Tri.isNull, Tri.valueOr, hf, ScriptDS.project, hid, hnm]
  · intro i n status entries hn
    by_cases hst : status = 200
    · subst hst
      cases hf : entries.find? (fun e => e.id == some i) with
      | none => simp [KeyStoreDS.read, Tri.isNull, Tri.valueOr, hf]
      | some e =>
        have hmem := List.mem_of_find?_eq_some hf
        have hid : e.id = some i := by simpa using List.find?_some hf
        obtain ⟨nm, hnm⟩ : ∃ nm, e.name = some nm := by
          cases hname : e.name with
          | none => exact absurd hname (hn e hmem)
          | some nm => exact ⟨nm, rfl⟩
        simp [KeyStoreDS.read, Tri.isNull, Tri.valueOr, hf, hid, hnm]
    · simp [KeyStoreDS.read, Tri.isNull, hst]
  · intro i n server out h
    simp only [ScriptDS.read, Tri.isNull, Bool.false_and, Bool.not_false,
      if_false, if_true, Tri.valueOr] at h
    cases hf : server.find? (fun s => s.id == some i) with
    | none => rw [hf] at h; cases h
    | some s =>
      rw [hf] at h
      have hid : s.id = some i := by simpa using List.find?_some hf
      cases h
      simp [ScriptDS.project, hid]
  · intro i n status entries out h
    by_cases hst : status = 200
    · subst hst
      simp only [KeyStoreDS.read, Tri.isNull, Bool.false_and, Bool.not_false,
        if_false, if_true, ne_eq, not_true_eq_false, Tri.valueOr] at h
      cases hf : entries.find? (fun e => e.id == some i) with
      | none =>
        rw [hf] at h
        exact absurd h (by simp)
      | some e =>
        rw [hf] at h
        have hid : e.id = some i := by simpa using List.find?_some hf
        simp only [Bool.false_eq_true, if_false, Except.ok.injEq] at h
        subst h
        simp [hid]
    · exact absurd h (by simp [KeyStoreDS.read, Tri.isNull, hst])

/-- Witness for C4: a concrete server whose record for the queried id is
named `"actual"` while the query supplies `name = "other"`: the both-set query
behaves exactly like the id-only query, and the returned id is the queried
one. -/
theorem singular_lookup_id_precedence_c4_witness :
    (ScriptDS.read { id := Tri.val 1, name := Tri.val "other" }
        [{ id := some 1, name := some "actual" }]
      = ScriptDS.read { id := Tri.val 1, name := Tri.null }
        [{ id := some 1, name := some "actual" }]) ∧
    (KeyStoreDS.read { id := Tri.val 2, name := Tri.val "other" } 200
        [{ id := some 2, name := some "actual", value := some "v" }]
      = KeyStoreDS.read { id := Tri.val 2, name := Tri.null } 200
        [{ id := some 2, name := some "actual", value := some "v" }]) ∧
    ((ScriptDS.read { id := Tri.val 1, name := Tri.val "other" }
        [{ id := some 1, name := some "actual" }]).toOption.map ScriptDSModel.id
      = some (Tri.val 1)) ∧
    ((KeyStoreDS.read { id := Tri.val 2, name := Tri.val "other" } 200
        [{ id := some 2, name := some "actual", value := some "v" }]).toOption.map
          KeyStoreDSModel.id = some (Tri.val 2)) := by
  refine ⟨singular_lookup_id_precedence_c4.1 1 "other" _ (by decide),
    singular_lookup_id_precedence_c4.2.1 2 "other" 200 _ (by decide), ?_, ?_⟩
  · rcases hr : ScriptDS.read { id := Tri.val 1, name := Tri.val "other" }
        [{ id := some 1, name := some "actual" }] with e | out
    · have hok : (ScriptDS.read { id := Tri.val 1, name := Tri.val "other" }
          [{ id := some 1, name := some "actual" }]).toOption.isSome = true := by decide
      rw [hr] at hok
      exact absurd hok (by simp [Except.toOption])
    · have := singular_lookup_id_precedence_c4.2.2.1 1 "other" _ out hr
      simp [Except.toOption, this]
  · rcases hr : KeyStoreDS.read { id := Tri.val 2, name := Tri.val "other" } 200
        [{ id := some 2, name := some "actual", value := some "v" }] with e | out
    · have hok : (KeyStoreDS.read { id := Tri.val 2, name := Tri.val "other" } 200
          [{ id := some 2, name := some "actual", value := some "v" }]).toOption.isSome
            = true := by decide
      rw [hr] at hok
      exact absurd hok (by simp [Except.toOption])
    · have := singular_lookup_id_precedence_c4.2.2.2 2 "other" 200 _ out hr
      simp [Except.toOption, this]

/-- The id-branch loop of the plural scripts data source returns exactly the
first id match, as an at-most-singleton list. -/
theorem scripts_firstIdMatch_eq_find (target : Int) (scripts : List ScriptJson) :
    ScriptsDS.firstIdMatch target scripts
      = (scripts.find? (fun s => s.id == some target)).toList := by
  induction scripts with
  | nil => rfl
  | cons s rest ih =>
    simp only [ScriptsDS.firstIdMatch, List.find?_cons]
    split
    · next hcond => simp [hcond]
    · next hcond => simp [hcond, ih]

/-- The id-branch loop of the plural keystores data source returns exactly
the first id match, as an at-most-singleton list. -/
theorem keystores_firstIdMatch_eq_find (target : Int) (entries : List KeyJson) :
    KeyStoresDS.firstIdMatch target entries
      = (entries.find? (fun e => e.id == some target)).toList := by
  induction entries with
  | nil => rfl
  | cons e rest ih =>
    simp only [KeyStoresDS.firstIdMatch, List.find?_cons]
    split
    · next hcond => simp [hcond]
    · next hcond => simp [hcond, ih]

/-- C6: plural id short-circuit.  When an `id` filter is set on a plural data
source, the output is the first element of the fetched collection whose id
equals the filter (as an at-most-singleton list), independent of every other
declared filter attribute. -/
theorem plural_id_short_circuit_c6 :
    (∀ (i : Int) (f : ScriptsFilter) (scripts : List ScriptJson),
        f.id = Tri.val i →
        ScriptsDS.applyFilters f scripts
          = (scripts.find? (fun s => s.id == some i)).toList) ∧
    (∀ (i : Int) (f : ScriptsFilter) (scripts : List ScriptJson),
        f.id = Tri.val i → (ScriptsDS.applyFilters f scripts).length ≤ 1) ∧
    (∀ (i : Int) (f : KeyStoresFilter) (entries : List KeyJson),
        f.id = Tri.val i →
        KeyStoresDS.applyFilters f entries
          = (entries.find? (fun e => e.id == some i)).toList) ∧
    (∀ (i : Int) (f : KeyStoresFilter) (entries : List KeyJson),
        f.id = Tri.val i → (KeyStoresDS.applyFilters f entries).length ≤ 1) := by
  have hs : ∀ (i : Int) (f : ScriptsFilter) (scripts : List ScriptJson),
      f.id = Tri.val i →
      ScriptsDS.applyFilters f scripts
        = (scripts.find? (fun s => s.id == some i)).toList := by
    intro i f scripts hid
    simp [ScriptsDS.applyFilters, hid, Tri.isNull, Tri.valueOr,
      scripts_firstIdMatch_eq_find]
  have hk : ∀ (i : Int) (f : KeyStoresFilter) (entries : List KeyJson),
      f.id = Tri.val i →
      KeyStoresDS.applyFilters f entries
        = (entries.find? (fun e => e.id == some i)).toList := by
    intro i f entries hid
    simp [KeyStoresDS.applyFilters, hid, Tri.isNull, Tri.valueOr,
      keystores_firstIdMatch_eq_find]
  refine ⟨hs, ?_, hk, ?_⟩
  · intro i f scripts hid
    rw [hs i f scripts hid]
    cases scripts.find? (fun s => s.id == some i) <;> simp
  · intro i f entries hid
    rw [hk i f entries hid]
    cases entries.find? (fun e => e.id == some i) <;> simp

/-- Witness for C6: a concrete plural query with an id filter together with a
name filter that matches nothing returns exactly the first id match, ignoring
the name filter. -/
theorem plural_id_short_circuit_c6_witness :
    (ScriptsDS.applyFilters { id := Tri.val 2, name := Tri.val "nomatch" }
        [{ id := some 1, name := some "a" }, { id := some 2, name := some "b" },
         { id := some 2, name := some "c" }]
      = [{ id := some 2, name := some "b" }]) ∧
    (KeyStoresDS.applyFilters { id := Tri.val 9, name := Tri.val "nomatch" }
        [{ id := some 9, name := some "k", value := some "v" }]
      = [{ id := some 9, name := some "k", value := some "v" }]) := by
  constructor
  · rw [plural_id_short_circuit_c6.1 2 _ _ rfl]
    decide
  · rw [plural_id_short_circuit_c6.2.2.1 9 _ _ rfl]
    decide


/-- Counterexample to C5: with only a `name` filter declared, a record that
satisfies every one of the claim's listed filters (vacuously — none of the
six is declared) is nevertheless excluded from the output, because the code
also filters by `name`, which the claim's filter list omits. -/
theorem plural_filter_set_c5_counterexample :
    ScriptsDS.applyFilters { name := Tri.val "A" } [{ id := some 2, name := some "B" }]
      = [] ∧
    specClaimMatches { name := Tri.val "A" } { id := some 2, name := some "B" } = true := by
  constructor <;> rfl

/-- The non-id loop of the plural scripts data source equals filtering by the
conjunctive include predicate, preserving server order. -/
theorem scripts_filterLoop_eq_filter (f : ScriptsFilter) (scripts : List ScriptJson) :
    ScriptsDS.filterLoop f scripts = scripts.filter (ScriptsDS.includePred f) := by
  induction scripts with
  | nil => rfl
  | cons s rest ih =>
    simp only [ScriptsDS.filterLoop, List.filter_cons]
    split
    · next hcond => simp [hcond, ih]
    · next hcond => simp [hcond, ih]

/-- C5 as amended: the plural scripts data source fetches the full collection
and, when no `id` filter is set, applies the declared client-side equality
filters — `name`, `script_type`, `shell`, `category`, `hidden`, in
declaration order — conjunctively: a record appears in the output iff it is
in the collection and satisfies every declared filter, in the server's
original order.  (No `favorite` or platform-contains filter exists.) -/
theorem plural_filters_conjunctive_c5 :
    (∀ (f : ScriptsFilter) (scripts : List ScriptJson), f.id = Tri.null →
        ScriptsDS.applyFilters f scripts = scripts.filter (ScriptsDS.includePred f)) ∧
    (∀ (f : ScriptsFilter) (scripts : List ScriptJson) (s : ScriptJson), f.id = Tri.null →
        (s ∈ ScriptsDS.applyFilters f scripts ↔
          s ∈ scripts ∧ ScriptsDS.includePred f s = true)) := by
  have hmain : ∀ (f : ScriptsFilter) (scripts : List ScriptJson), f.id = Tri.null →
      ScriptsDS.applyFilters f scripts = scripts.filter (ScriptsDS.includePred f) := by
    intro f scripts hid
    simp [ScriptsDS.applyFilters, hid, Tri.isNull, scripts_filterLoop_eq_filter]
  refine ⟨hmain, ?_⟩
  intro f scripts s hid
  rw [hmain f scripts hid, List.mem_filter]

/-- Witness for C5 (amended): a concrete shell filter keeps exactly the
matching records, in order. -/
theorem plural_filters_conjunctive_c5_witness :
    ScriptsDS.applyFilters { shell := Tri.val "python" }
        [{ id := some 1, shell := some "python" }, { id := some 2, shell := some "cmd" },
         { id := some 3, shell := some "python" }]
      = [{ id := some 1, shell := some "python" }, { id := some 3, shell := some "python" }] := by
  rw [plural_filters_conjunctive_c5.1 _ _ rfl]
  decide

/-- Counterexample to C3: supplying both `id` and `name` to a singular data
source is not an error at all — the concrete both-set queries below succeed
(the id lookup proceeds and the supplied name is ignored), where the claim
requires a hard malformed-input error. -/
theorem singular_both_set_c3_counterexample :
    (ScriptDS.read { id := Tri.val 1, name := Tri.val "other" }
        [{ id := some 1, name := some "actual" }]).toOption.isSome = true ∧
    (KeyStoreDS.read { id := Tri.val 1, name := Tri.val "other" } 200
        [{ id := some 1, name := some "actual", value := some "v" }]).toOption.isSome
      = true := by
  constructor <;> decide

/-- C3 as amended: supplying neither `id` nor `name` on a singular data
source is a hard malformed-input error, and a non-numeric import identifier
is a hard error; supplying both `id` and `name` is accepted — the
malformed-input error is never raised when `id` is set (the lookup proceeds
by id). -/
theorem singular_validation_c3 :
    (∀ (q : ScriptDSQuery) (server : List ScriptJson),
        q.id = Tri.null → q.name = Tri.null →
        ScriptDS.read q server = .error .missingIdentifier) ∧
    (∀ (q : KeyStoreDSModel) (status : Nat) (entries : List KeyJson),
        q.id = Tri.null → q.name = Tri.null →
        KeyStoreDS.read q status entries = .error .missingIdentifier) ∧
    (∀ s : String, parseInt64 s = none → scriptImportState s = .error "Invalid ID") ∧
    (∀ (q : ScriptDSQuery) (server : List ScriptJson),
        q.id.isNull = false →
        ScriptDS.read q server ≠ .error .missingIdentifier) ∧
    (∀ (q : KeyStoreDSModel) (status : Nat) (entries : List KeyJson),
        q.id.isNull = false →
        KeyStoreDS.read q status entries ≠ .error .missingIdentifier) := by
  refine ⟨?_, ?_, ?_, ?_, ?_⟩
  · intro q server hid hname
    simp [ScriptDS.read, hid, hname, Tri.isNull]
  · intro q status entries hid hname
    simp [KeyStoreDS.read, hid, hname, Tri.isNull]
  · intro s hp
    simp [scriptImportState, hp]
  · intro q server hq
    cases hf : server.find? (fun s => s.id == some (q.id.valueOr 0)) <;>
      simp [ScriptDS.read, hq, hf]
  · intro q status entries hq
    by_cases hst : status = 200
    · subst hst
      cases hf : entries.find? (fun e => e.id == some (q.id.valueOr 0)) <;>
        simp [KeyStoreDS.read, hq, hf]
    · simp [KeyStoreDS.read, hq, hst]

/-- Witness for C3 (amended): concrete instances — the neither-set queries
error as malformed, `"12abc"` fails import parsing, and concrete both-set
queries do not raise the malformed-input error. -/
theorem singular_validation_c3_witness :
    (ScriptDS.read {} [] = .error .missingIdentifier) ∧
    (KeyStoreDS.read {} 200 [] = .error .missingIdentifier) ∧
    (scriptImportState "12abc" = .error "Invalid ID") ∧
    (ScriptDS.read { id := Tri.val 1, name := Tri.val "other" } []
      ≠ .error .missingIdentifier) ∧
    (KeyStoreDS.read { id := Tri.val 1, name := Tri.val "other" } 200 []
      ≠ .error .missingIdentifier) :=
  ⟨singular_validation_c3.1 {} [] rfl rfl,
   singular_validation_c3.2.1 {} 200 [] rfl rfl,
   singular_validation_c3.2.2.1 "12abc" (by decide),
   singular_validation_c3.2.2.2.1 _ [] rfl,
   singular_validation_c3.2.2.2.2 _ 200 [] rfl⟩


/-- Every character list is a prefix of itself. -/
theorem isPrefixOf_self (l : List Char) : l.isPrefixOf l = true := by
  induction l with
  | nil => rfl
  | cons c cs ih => simp [List.isPrefixOf, ih]

/-- A needle occurs in any haystack that ends with it. -/
theorem subAt_append_right (pre n : List Char) : subAt n (pre ++ n) = true := by
  induction pre with
  | nil =>
    cases n with
    | nil => rfl
    | cons c cs => simp [subAt, isPrefixOf_self]
  | cons c cs ih => simp [subAt, ih]

/-- Counterexample to C9: a script (and snippet) Update receiving a non-200
response with body `"bad payload"` — on the PUT or on the follow-up GET —
reports an error message built from the status code alone: the response body
text does not occur in it. -/
theorem update_error_detail_c9_counterexample :
    (ScriptResource.update {} {} 400 200 {}
      = .error (ScriptResource.updateErrMsg 400)) ∧
    (ScriptResource.updateErrMsg 400 = "Unable to update script, status code: 400") ∧
    (subAt "bad payload".data "Unable to update script, status code: 400".data = false) ∧
    (SnippetResource.update {} {} 400 200 {}
      = .error (SnippetResource.updateErrMsg 400)) ∧
    (SnippetResource.updateErrMsg 400
      = "Unable to update script snippet, status code: 400") ∧
    (subAt "bad payload".data
        "Unable to update script snippet, status code: 400".data = false) ∧
    (ScriptResource.update {} {} 200 400 {}
      = .error (ScriptResource.updateGetErrMsg 400)) ∧
    (ScriptResource.updateGetErrMsg 400
      = "Unable to read updated script, status code: 400") ∧
    (subAt "bad payload".data
        "Unable to read updated script, status code: 400".data = false) ∧
    (SnippetResource.update {} {} 200 400 {}
      = .error (SnippetResource.updateGetErrMsg 400)) ∧
    (SnippetResource.updateGetErrMsg 400
      = "Unable to read updated script snippet, status code: 400") ∧
    (subAt "bad payload".data
        "Unable to read updated script snippet, status code: 400".data = false) := by
  refine ⟨by simp [ScriptResource.update], by decide, by decide,
    by simp [SnippetResource.update], by decide, by decide,
    by simp [ScriptResource.update], by decide, by decide,
    by simp [SnippetResource.update], by decide, by decide⟩

/-- C9 as amended: only the keystore Update reports the response body text in
its non-200 error message (the body occurs verbatim in the message); the
script and snippet Updates report messages built from the status code
alone, on both the PUT and the follow-up GET — their error construction
never reads the response body. -/
theorem update_error_detail_c9 :
    (∀ (plan state : KeyStoreResourceModel) (putStatus : Nat) (url respBody : String),
        putStatus ≠ 200 →
        KeyStoreResource.update plan state putStatus url respBody
          = .error (KeyStoreResource.updateErrMsg (state.id.valueOr 0) putStatus
              url respBody)) ∧
    (∀ (id : Int) (status : Nat) (url respBody : String),
        subAt respBody.data
          (KeyStoreResource.updateErrMsg id status url respBody).data = true) ∧
    (∀ (plan state : ScriptResourceModel) (putStatus getStatus : Nat) (r : ScriptJson),
        putStatus ≠ 200 →
        ScriptResource.update plan state putStatus getStatus r
          = .error (ScriptResource.updateErrMsg putStatus)) ∧
    (∀ (plan state : SnippetResourceModel) (putStatus getStatus : Nat) (r : SnippetJson),
        putStatus ≠ 200 →
        SnippetResource.update plan state putStatus getStatus r
          = .error (SnippetResource.updateErrMsg putStatus)) ∧
    (∀ (plan state : ScriptResourceModel) (getStatus : Nat) (r : ScriptJson),
        getStatus ≠ 200 →
        ScriptResource.update plan state 200 getStatus r
          = .error (ScriptResource.updateGetErrMsg getStatus)) ∧
    (∀ (plan state : SnippetResourceModel) (getStatus : Nat) (r : SnippetJson),
        getStatus ≠ 200 →
        SnippetResource.update plan state 200 getStatus r
          = .error (SnippetResource.updateGetErrMsg getStatus)) := by
  refine ⟨?_, ?_, ?_, ?_, ?_, ?_⟩
  · intro plan state putStatus url respBody h
    simp [KeyStoreResource.update, h]
  · intro id status url respBody
    simp only [KeyStoreResource.updateErrMsg, String.data_append]
    exact subAt_append_right _ _
  · intro plan state putStatus getStatus r h
    simp [ScriptResource.update, h]
  · intro plan state putStatus getStatus r h
    simp [SnippetResource.update, h]
  · intro plan state getStatus r h
    simp [ScriptResource.update, h]
  · intro plan state getStatus r h
    simp [SnippetResource.update, h]

/-- Witness for C9 (amended): concrete failed updates — the keystore message
contains the body `"bad payload"`, while the script and snippet messages,
for a failed PUT and for a failed follow-up GET alike, are the status-only
strings. -/
theorem update_error_detail_c9_witness :
    (KeyStoreResource.update {} { id := Tri.val 3 } 500 "https://u" "bad payload"
      = .error (KeyStoreResource.updateErrMsg 3 500 "https://u" "bad payload")) ∧
    (subAt "bad payload".data
        (KeyStoreResource.updateErrMsg 3 500 "https://u" "bad payload").data = true) ∧
    (ScriptResource.update {} {} 500 200 {} = .error (ScriptResource.updateErrMsg 500)) ∧
    (SnippetResource.update {} {} 500 200 {}
      = .error (SnippetResource.updateErrMsg 500)) ∧
    (ScriptResource.update {} {} 200 500 {}
      = .error (ScriptResource.updateGetErrMsg 500)) ∧
    (SnippetResource.update {} {} 200 500 {}
      = .error (SnippetResource.updateGetErrMsg 500)) :=
  ⟨update_error_detail_c9.1 {} { id := Tri.val 3 } 500 "https://u" "bad payload" (by decide),
   update_error_detail_c9.2.1 3 500 "https://u" "bad payload",
   update_error_detail_c9.2.2.1 {} {} 500 200 {} (by decide),
   update_error_detail_c9.2.2.2.1 {} {} 500 200 {} (by decide),
   update_error_detail_c9.2.2.2.2.1 {} {} 500 {} (by decide),
   update_error_detail_c9.2.2.2.2.2 {} {} 500 {} (by decide)⟩
